import Mathlib

/-!
# Dark Watch web client — verification of the API client contract

Shallow embedding of `src/lib/api.ts` (the token-based `ApiClient`) and of the
`NewJob` form validation. Browser-local storage is modelled as an explicit
`Store` value threaded through each operation; the network is modelled by a
`FetchOutcome` input describing what `fetch` returned for the single attempt
the client makes. JavaScript values appearing in JSON bodies are modelled by
`JsVal`, including JS truthiness and string coercion where the code relies on
them.
-/

namespace DarkWatch

/-- A JavaScript value as it can appear after `response.json()`, plus
`undefined`, which is what property access on a missing field
yields. Numbers are modelled as integers (no claim involves fractions). -/
inductive JsVal where
  | null
  | undefined
  | bool (b : Bool)
  | num (n : Int)
  | str (s : String)
  | obj (fields : List (String × JsVal))
  | arr (elems : List JsVal)

/-- JS truthiness, as used by `if (...)` and `||` in the source. -/
def JsVal.truthy : JsVal → Bool
  | .null => false
  | .undefined => false
  | .bool b => b
  | .num n => n != 0
  | .str s => s != ""
  | .obj _ => true
  | .arr _ => true

mutual

/-- JS string coercion `String(v)`, as applied by `new Error(v)` and
`localStorage.setItem(k, v)`. Arrays render as their elements joined by
commas. -/
def JsVal.display : JsVal → String
  | .null => "null"
  | .undefined => "undefined"
  | .bool b => cond b "true" "false"
  | .num n => toString n
  | .str s => s
  | .obj _ => "[object Object]"
  | .arr elems => JsVal.displayList elems

/-- Comma-joined rendering of an array's elements. -/
def JsVal.displayList : List JsVal → String
  | [] => ""
  | [v] => v.display
  | v :: vs => v.display ++ "," ++ JsVal.displayList vs

end

/-- JS `a || b`: `a` when truthy, otherwise `b`. -/
def jsOr (a b : JsVal) : JsVal := if a.truthy then a else b

/-- Last-binding-wins lookup in a JS object's field list (later duplicate keys
shadow earlier ones, as in JS object literals and `JSON.parse`). -/
def lookupLast : List (String × JsVal) → String → Option JsVal
  | [], _ => none
  | (k, v) :: rest, key =>
      match lookupLast rest key with
      | some v2 => some v2
      | none => if key == k then some v else none

/-- JS property access `v.k`: the field's value on an object that has it,
`undefined` otherwise. -/
def jsGet (v : JsVal) (k : String) : JsVal :=
  match v with
  | .obj fields =>
      match lookupLast fields k with
      | some x => x
      | none => .undefined
  | _ => .undefined

/-- Drop leading whitespace characters. -/
def dropLeadingWs : List Char → List Char
  | [] => []
  | c :: cs => if c.isWhitespace then dropLeadingWs cs else c :: cs

/-- JS `String.prototype.trim`: strip whitespace from both ends. -/
def jsTrim (s : String) : String :=
  ⟨(dropLeadingWs ((dropLeadingWs s.toList).reverse)).reverse⟩

/-- Whether `needle` is a prefix of the second list. -/
def charsPrefixOf : List Char → List Char → Bool
  | [], _ => true
  | _ :: _, [] => false
  | a :: as, b :: bs => a == b && charsPrefixOf as bs

/-- Whether `needle` occurs contiguously in the second list. -/
def charsInfixOf (needle : List Char) : List Char → Bool
  | [] => charsPrefixOf needle []
  | b :: bs => charsPrefixOf needle (b :: bs) || charsInfixOf needle bs

/-- JS `String.prototype.includes`: substring containment. -/
def strIncludes (s sub : String) : Bool := charsInfixOf sub.toList s.toList

/-- The two browser-local storage keys the client persists
(`auth_token` and `user`). `user` holds the profile that was
`JSON.stringify`ed into storage, kept here as the structured value. -/
structure Store where
  auth_token : Option String
  user : Option JsVal

/-- The store with both keys removed. -/
def Store.cleared : Store := { auth_token := none, user := none }

/-- Header lists with JS-object semantics: a later binding for the same key
overwrites an earlier one, which this last-wins lookup realises. -/
def headersGet : List (String × String) → String → Option String
  | [], _ => none
  | (k, v) :: rest, key =>
      match headersGet rest key with
      | some v2 => some v2
      | none => if key == k then some v else none

/-- The `RequestInit` options callers pass to `request`; the body is kept as
the structured value handed to `JSON.stringify` (the serialized text is opaque
to the client). `headers := none` models an options object without a
`headers` property. -/
structure RequestInit where
  method : Option String := none
  body : Option JsVal := none
  headers : Option (List (String × String)) := none

/-- The request configuration handed to `fetch`. -/
structure Config where
  credentials : String
  headers : List (String × String)
  method : Option String
  body : Option JsVal

/-- What `fetch(url, config)` came back with: a reply with an HTTP status and
a body (`some j` when the body text parses as JSON, `none` when it does not),
or a transport-level rejection (`some m` an `Error` with message `m`, `none`
a non-`Error` throw). -/
inductive FetchOutcome where
  | reply (status : Nat) (body : Option JsVal)
  | netError (msg : Option String)

/-- `response.ok`: status in the 200–299 range. -/
def responseOk (status : Nat) : Bool := 200 ≤ status && status < 300

/-- An error surfaced to a caller of `request`: an `Error` carrying a message,
or the engine-specific `SyntaxError` rejection from `response.json()` on a
success body that is not valid JSON (its message text is unspecified). -/
inductive JsError where
  | msgError (message : String)
  | parseReject
deriving Repr, DecidableEq

namespace ApiClient

/-- `{'Content-Type': 'application/json', ...options.headers}` — the header
object built inside the `config` literal. -/
def mergedHeaders (options : RequestInit) : List (String × String) :=
  ("Content-Type", "application/json") :: options.headers.getD []

/-- The headers of `config` after the whole literal is evaluated: the trailing
`...options` spread re-assigns the `headers` property whenever `options` has
one, replacing the merged headers with `options.headers` alone. -/
def configHeaders (options : RequestInit) : List (String × String) :=
  match options.headers with
  | some h => h
  | none => mergedHeaders options

/-- The full `config` passed to `fetch`, after the token-attachment step:
the guard is JS-truthy on the stored token — `token && ...` — so a missing
token and an empty-string token alike attach nothing; otherwise, when the
endpoint contains neither `/auth/login` nor `/auth/register`, an
`Authorization: Bearer <token>` binding is added on top of the existing
headers. -/
def requestConfig (endpoint : String) (options : RequestInit) (store : Store) : Config :=
  let base : Config :=
    { credentials := "include"
      headers := configHeaders options
      method := options.method
      body := options.body }
  match store.auth_token with
  | some token =>
      if token != "" && !(strIncludes endpoint "/auth/login")
          && !(strIncludes endpoint "/auth/register") then
        { base with headers := base.headers ++ [("Authorization", "Bearer " ++ token)] }
      else base
  | none => base

/-- The error message derived from a non-success response's body:
`errorData.error || errorData.message || \x7bHTTP <status>\x7d`, with the
`HTTP <status>` fallback also used when the body is not valid JSON. -/
def errorBodyMessage (status : Nat) (body : Option JsVal) : String :=
  match body with
  | some j =>
      (jsOr (jsGet j "error") (jsOr (jsGet j "message") (.str ("HTTP " ++ toString status)))).display
  | none => "HTTP " ++ toString status

/-- `ApiClient.request`. Returns the store after the call together with either
the parsed success body or the error the caller observes. Mirrors the source:
a 401 clears both stored keys and throws the fixed authentication message
(re-thrown unchanged by the outer catch); any other non-success status throws
the body-derived message inside the `try`, so the outer catch re-wraps it as
`Network error: <msg>` unless the message contains `Authentication failed`;
a transport failure is wrapped the same way; a success body that is not JSON
rejects with the engine's parse error, which escapes the `try`/`catch`
because `return response.json()` is not awaited. -/
def request (endpoint : String) (options : RequestInit) (store : Store)
    (outcome : FetchOutcome) : Store × Except JsError JsVal :=
  match outcome with
  | .netError msg =>
      match msg with
      | some m =>
          if strIncludes m "Authentication failed" then
            (store, .error (.msgError m))
          else
            (store, .error (.msgError ("Network error: " ++ m)))
      | none => (store, .error (.msgError "Network error: Unknown error"))
  | .reply status body =>
      if responseOk status then
        match body with
        | some j => (store, .ok j)
        | none => (store, .error .parseReject)
      else if status == 401 then
        (Store.cleared, .error (.msgError "Authentication failed. Please login again."))
      else
        let errorMessage := errorBodyMessage status body
        if strIncludes errorMessage "Authentication failed" then
          (store, .error (.msgError errorMessage))
        else
          (store, .error (.msgError ("Network error: " ++ errorMessage)))

/-- `isAuthenticated()`: a token is currently stored. -/
def isAuthenticated (store : Store) : Bool := store.auth_token.isSome

/-- The session-store write shared by `login` and `register` on a response
with truthy `success` and truthy `token`: `setStoredToken(response.token)`
(storage stringifies the value) and `setStoredUser(response.user)`. -/
def storeAuthResponse (response : JsVal) : Store :=
  { auth_token := some (jsGet response "token").display
    user := some (jsGet response "user") }

/-- `ApiClient.register`. -/
def register (email password : String) (store : Store) (outcome : FetchOutcome) :
    Store × Except JsError JsVal :=
  let (store1, res) := request "/api/auth/register"
      { method := some "POST"
        body := some (.obj [("email", .str email), ("password", .str password)]) }
      store outcome
  match res with
  | .error e => (store1, .error e)
  | .ok response =>
      if (jsGet response "success").truthy && (jsGet response "token").truthy then
        (storeAuthResponse response, .ok response)
      else
        (store1, .ok response)

/-- `ApiClient.login`. -/
def login (email password : String) (store : Store) (outcome : FetchOutcome) :
    Store × Except JsError JsVal :=
  let (store1, res) := request "/api/auth/login"
      { method := some "POST"
        body := some (.obj [("email", .str email), ("password", .str password)]) }
      store outcome
  match res with
  | .error e => (store1, .error e)
  | .ok response =>
      if (jsGet response "success").truthy && (jsGet response "token").truthy then
        (storeAuthResponse response, .ok response)
      else
        (store1, .ok response)

/-- `ApiClient.logout`: try the backend call; on failure return the fixed
fallback object instead of propagating; the `finally` block clears both
stored keys in every case. -/
def logout (store : Store) (outcome : FetchOutcome) : Store × JsVal :=
  let (_, res) := request "/api/auth/logout" { method := some "POST" } store outcome
  match res with
  | .ok response => (Store.cleared, response)
  | .error _ =>
      (Store.cleared,
        .obj [("success", .bool false),
              ("message", .str "Logout request failed but local session cleared")])

/-- `ApiClient.getProfile`. -/
def getProfile (store : Store) (outcome : FetchOutcome) : Store × Except JsError JsVal :=
  request "/api/auth/profile" {} store outcome

/-- `ApiClient.validateToken`: profile fetch succeeds ⇒ `true`; any failure
⇒ clear both stored keys and return `false`. -/
def validateToken (store : Store) (outcome : FetchOutcome) : Store × Bool :=
  let (store1, res) := getProfile store outcome
  match res with
  | .ok _ => (store1, true)
  | .error _ => (Store.cleared, false)

/-- `ApiClient.createJob`. -/
def createJob (name url : String) (check_interval_minutes : Int) (store : Store)
    (outcome : FetchOutcome) : Store × Except JsError JsVal :=
  request "/api/jobs"
    { method := some "POST"
      body := some (.obj [("name", .str name), ("url", .str url),
                          ("check_interval_minutes", .num check_interval_minutes)]) }
    store outcome

end ApiClient

/-- The `NewJob` form's state that validation reads. -/
structure NewJobFormData where
  name : String
  url : String
  check_interval_minutes : Int
deriving Repr, DecidableEq

namespace NewJob

/-- `validateForm` from the NewJob page, returning the `newErrors` entries.
`urlValid` stands for the browser's `new URL(...)` constructor succeeding,
which is a platform builtin and is taken as a parameter. -/
def validateForm (urlValid : String → Bool) (f : NewJobFormData) :
    List (String × String) :=
  let nameErr :=
    if jsTrim f.name == "" then [("name", "Job name is required")] else []
  let urlErr :=
    if jsTrim f.url == "" then [("url", "URL is required")]
    else if !urlValid f.url then [("url", "Please enter a valid URL")]
    else []
  let intervalErr :=
    if f.check_interval_minutes < 1 then
      [("check_interval_minutes", "Check interval must be at least 1 minute")]
    else if f.check_interval_minutes > 1440 then
      [("check_interval_minutes", "Check interval cannot exceed 1440 minutes (24 hours)")]
    else []
  nameErr ++ urlErr ++ intervalErr

/-- The network call `handleSubmit` issues, when it issues one. -/
structure CreateJobCall where
  name : String
  url : String
  check_interval_minutes : Int
deriving Repr, DecidableEq

/-- `handleSubmit`: returns early with no network call unless `validateForm`
reports no errors; otherwise issues `createJob` with the form's fields. -/
def handleSubmit (urlValid : String → Bool) (f : NewJobFormData) :
    Option CreateJobCall :=
  if validateForm urlValid f = [] then
    some ⟨f.name, f.url, f.check_interval_minutes⟩
  else
    none

end NewJob

/-! ## Helper lemmas -/

/-- A binding appended at the end of a header list wins the lookup for its
key (JS object spread semantics). -/
theorem headersGet_append_last (hs : List (String × String)) (k v : String) :
    headersGet (hs ++ [(k, v)]) k = some v := by
  induction hs with
  | nil => simp [headersGet]
  | cons p rest ih => simp [headersGet, ih]

/-- `request` leaves the store untouched on every outcome that is not a 401
reply. -/
theorem request_fst_eq_of_ne_401 (endpoint : String) (options : RequestInit)
    (store : Store) (outcome : FetchOutcome)
    (h : ∀ b, outcome ≠ FetchOutcome.reply 401 b) :
    (ApiClient.request endpoint options store outcome).1 = store := by
  cases outcome with
  | netError msg =>
      cases msg with
      | none => rfl
      | some m =>
          simp only [ApiClient.request]
          split <;> rfl
  | reply status body =>
      simp only [ApiClient.request]
      split
      · split <;> rfl
      · split
        · rename_i h401
          exact absurd (by rw [eq_of_beq h401]) (fun hh => h body hh)
        · split <;> rfl

/-- With a nonempty token cached and an endpoint passing the login/register
containment check, the config's `Authorization` lookup yields the bearer
token. -/
theorem requestConfig_auth_header (endpoint : String) (options : RequestInit)
    (store : Store) (t : String) (htok : store.auth_token = some t) (ht : t ≠ "")
    (hl : strIncludes endpoint "/auth/login" = false)
    (hr : strIncludes endpoint "/auth/register" = false) :
    headersGet (ApiClient.requestConfig endpoint options store).headers "Authorization"
      = some ("Bearer " ++ t) := by
  have htb : (t != "") = true := by simpa using ht
  simp only [ApiClient.requestConfig, htok, htb, hl, hr, Bool.not_false, Bool.and_self,
    Bool.true_and, Bool.and_true, if_true]
  exact headersGet_append_last _ _ _

/-! ## Claim theorems -/

/-- C1: a 401 response to any endpoint makes `request` clear both the cached
token and the cached user and fail with exactly the message
"Authentication failed. Please login again."; and a 401 reply is the only
outcome on which `request` mutates the session store. -/
theorem request_401_clears_session (endpoint : String) (options : RequestInit)
    (store : Store) (body : Option JsVal) :
    ApiClient.request endpoint options store (.reply 401 body)
      = (Store.cleared, .error (.msgError "Authentication failed. Please login again."))
    ∧ ∀ outcome : FetchOutcome,
        (ApiClient.request endpoint options store outcome).1 ≠ store →
        ∃ b, outcome = FetchOutcome.reply 401 b := by
  constructor
  · rfl
  · intro outcome hmut
    by_contra hno
    push_neg at hno
    exact hmut (request_fst_eq_of_ne_401 endpoint options store outcome hno)

/-- C1 witness: a 401 on a job fetch with a token cached clears the store and
yields the fixed message; that call mutates the store and is indeed a 401
reply. -/
theorem request_401_clears_session_witness :
    ApiClient.request "/api/jobs" {} ⟨some "tok", none⟩ (.reply 401 none)
      = (Store.cleared, .error (.msgError "Authentication failed. Please login again."))
    ∧ ∃ b, FetchOutcome.reply 401 (none : Option JsVal) = FetchOutcome.reply 401 b := by
  refine ⟨(request_401_clears_session "/api/jobs" {} ⟨some "tok", none⟩ none).1, ?_⟩
  exact (request_401_clears_session "/api/jobs" {} ⟨some "tok", none⟩ none).2
    (.reply 401 none)
    (by intro h; exact Option.noConfusion (congrArg Store.auth_token h))

/-- C2 counterexample: a non-JSON body with HTTP 500 does not produce the
message `HTTP 500`; the outer catch re-wraps it, producing
`Network error: HTTP 500`. -/
theorem request_500_message_counterexample :
    (ApiClient.request "/api/status" {} ⟨none, none⟩ (.reply 500 none)).2
      ≠ Except.error (.msgError "HTTP 500")
    ∧ ApiClient.request "/api/status" {} ⟨none, none⟩ (.reply 500 none)
      = (⟨none, none⟩, .error (.msgError "Network error: HTTP 500")) := by
  constructor
  · show Except.error (JsError.msgError "Network error: HTTP 500") ≠ _
    simp
  · rfl

/-- C2 amended: on a non-success status other than 401, with the derived
message not itself containing "Authentication failed", `request` leaves the
store unchanged and fails with `Network error: ` followed by the message
parsed from the JSON error body (fields `error` then `message`) or by
`HTTP <status>` when the body is not JSON. -/
theorem request_non401_error_message (endpoint : String) (options : RequestInit)
    (store : Store) (status : Nat) (body : Option JsVal)
    (hok : responseOk status = false) (h401 : status ≠ 401)
    (hauth : strIncludes (ApiClient.errorBodyMessage status body) "Authentication failed"
      = false) :
    ApiClient.request endpoint options store (.reply status body)
      = (store, .error (.msgError
          ("Network error: " ++ ApiClient.errorBodyMessage status body))) := by
  have h401b : (status == 401) = false := by
    simp [h401]
  simp [ApiClient.request, hok, h401b, hauth]

/-- C2 amended witness: HTTP 500 with a body that is not JSON yields
`Network error: HTTP 500` and leaves the store unchanged. -/
theorem request_non401_error_message_witness :
    ApiClient.request "/api/status" {} ⟨none, none⟩ (.reply 500 none)
      = (⟨none, none⟩, .error (.msgError
          ("Network error: " ++ ApiClient.errorBodyMessage 500 none))) :=
  request_non401_error_message "/api/status" {} ⟨none, none⟩ 500 none rfl
    (by decide) rfl

/-- C3 counterexample: a cached empty-string token counts as "a token is
cached" — `isAuthenticated` is true — yet the truthiness guard
`if (token && ...)` attaches no `Authorization` header at all, so the claim
fails at the cached token `""`. Such a store is reachable: the program
stores whatever string the token value coerces to (e.g. `loginWithToken`
with `""`, or a truthy JSON token such as `[]` whose string coercion is
`""`). -/
theorem bearer_empty_token_counterexample :
    ApiClient.isAuthenticated ⟨some "", none⟩ = true
    ∧ headersGet (ApiClient.requestConfig "/api/auth/profile" {}
        ⟨some "", none⟩).headers "Authorization" = none
    ∧ headersGet (ApiClient.requestConfig "/api/auth/profile" {}
        ⟨some "", none⟩).headers "Authorization" ≠ some ("Bearer " ++ "") := by
  refine ⟨rfl, rfl, ?_⟩
  show (none : Option String) ≠ some ("Bearer " ++ "")
  simp

/-- C3 amended: when a nonempty token is cached and the endpoint is not a
login or register endpoint (the code's containment check on `/auth/login`
and `/auth/register`), the outgoing configuration carries
`Authorization: Bearer <token>` with exactly the cached token; and every
outcome other than a 401 reply leaves that token in place, so the next such
request attaches it again until logout or a 401 clears it. -/
theorem request_attaches_bearer_token (endpoint : String) (options : RequestInit)
    (store : Store) (t : String) (htok : store.auth_token = some t) (ht : t ≠ "")
    (hl : strIncludes endpoint "/auth/login" = false)
    (hr : strIncludes endpoint "/auth/register" = false) :
    headersGet (ApiClient.requestConfig endpoint options store).headers "Authorization"
      = some ("Bearer " ++ t)
    ∧ ∀ outcome : FetchOutcome, (∀ b, outcome ≠ FetchOutcome.reply 401 b) →
        (ApiClient.request endpoint options store outcome).1.auth_token = some t := by
  constructor
  · exact requestConfig_auth_header endpoint options store t htok ht hl hr
  · intro outcome hno
    rw [request_fst_eq_of_ne_401 endpoint options store outcome hno, htok]

/-- C3 amended witness: with the nonempty token "tok" cached, a profile fetch
carries `Authorization: Bearer tok`, and a 200 reply leaves the token
cached. -/
theorem request_attaches_bearer_token_witness :
    headersGet (ApiClient.requestConfig "/api/auth/profile" {}
        ⟨some "tok", none⟩).headers "Authorization" = some ("Bearer " ++ "tok")
    ∧ (ApiClient.request "/api/auth/profile" {} ⟨some "tok", none⟩
        (.reply 200 (some .null))).1.auth_token = some "tok" := by
  have h := request_attaches_bearer_token "/api/auth/profile" {} ⟨some "tok", none⟩
    "tok" rfl (by decide) rfl rfl
  exact ⟨h.1, h.2 (.reply 200 (some .null)) (by intro b hb; simp at hb)⟩

/-- C4 counterexample: a call that supplies extra headers in its options does
not carry `Content-Type: application/json` at all — the trailing spread of
the options over the config object replaces the merged header object. -/
theorem content_type_counterexample :
    headersGet (ApiClient.requestConfig "/api/jobs"
        { headers := some [("X-Custom", "1")] } ⟨none, none⟩).headers "Content-Type"
      = none
    ∧ headersGet (ApiClient.requestConfig "/api/jobs"
        { headers := some [("X-Custom", "1")] } ⟨none, none⟩).headers "Content-Type"
      ≠ some "application/json" := by
  constructor
  · rfl
  · show (none : Option String) ≠ some "application/json"
    simp

/-- C4 amended: every call whose options do not supply a headers object
carries `Content-Type: application/json`; supplied headers replace the
default header object entirely. -/
theorem content_type_sent_without_extra_headers (endpoint : String)
    (options : RequestInit) (store : Store) (hnone : options.headers = none) :
    headersGet (ApiClient.requestConfig endpoint options store).headers "Content-Type"
      = some "application/json" := by
  cases store with
  | mk tok usr =>
      cases tok with
      | none =>
          simp [ApiClient.requestConfig, ApiClient.configHeaders,
            ApiClient.mergedHeaders, hnone, headersGet]
      | some t =>
          simp only [ApiClient.requestConfig, ApiClient.configHeaders,
            ApiClient.mergedHeaders, hnone]
          split <;> simp [headersGet]

/-- C4 amended witness: a job-list call without extra headers carries the
JSON content type. -/
theorem content_type_sent_without_extra_headers_witness :
    headersGet (ApiClient.requestConfig "/api/jobs" {} ⟨some "tok", none⟩).headers
      "Content-Type" = some "application/json" :=
  content_type_sent_without_extra_headers "/api/jobs" {} ⟨some "tok", none⟩ rfl

/-- C5: logout clears both cached token and cached user on every outcome of
the backend call — success, HTTP error, 401 or transport failure — and never
propagates the failure: on any failed backend call it returns the fixed
fallback object instead. -/
theorem logout_always_clears_session (store : Store) (outcome : FetchOutcome) :
    (ApiClient.logout store outcome).1 = Store.cleared
    ∧ (ApiClient.logout store outcome).2
      = (match (ApiClient.request "/api/auth/logout" { method := some "POST" }
            store outcome).2 with
         | .ok response => response
         | .error _ => .obj [("success", .bool false),
             ("message", .str "Logout request failed but local session cleared")]) := by
  unfold ApiClient.logout
  rcases h : ApiClient.request "/api/auth/logout" { method := some "POST" } store outcome
    with ⟨s1, res⟩
  cases res <;> simp

/-- C6 counterexample: a login receiving HTTP 400 with body
`{"error": "invalid credentials"}` does not fail with the message
`invalid credentials`: the outer catch re-wraps it as
`Network error: invalid credentials`. -/
theorem login_invalid_credentials_counterexample :
    (ApiClient.login "a@b.com" "pw" ⟨none, none⟩
        (.reply 400 (some (.obj [("error", .str "invalid credentials")])))).2
      ≠ Except.error (.msgError "invalid credentials") := by
  show Except.error (JsError.msgError "Network error: invalid credentials") ≠ _
  simp

/-- C6 amended: a login receiving HTTP 400 with body
`{"error": "invalid credentials"}` fails with the message
`Network error: invalid credentials` and writes no session state: the store
is returned exactly as it was before the call. -/
theorem login_invalid_credentials (email password : String) (store : Store) :
    ApiClient.login email password store
        (.reply 400 (some (.obj [("error", .str "invalid credentials")])))
      = (store, .error (.msgError "Network error: invalid credentials")) := rfl

/-- C7: a register (or login) call answered with a success status and a body
carrying truthy `success`, a nonempty token and a user persists the token and
user into the store before returning the body; afterwards `isAuthenticated`
is true and a profile fetch carries `Authorization: Bearer <token>`. -/
theorem auth_success_persists_session (email password t : String) (store : Store)
    (status : Nat) (j : JsVal)
    (hok : responseOk status = true)
    (hsucc : (jsGet j "success").truthy = true)
    (htok : jsGet j "token" = .str t) (ht : t ≠ "") :
    ApiClient.register email password store (.reply status (some j))
      = ({ auth_token := some t, user := some (jsGet j "user") }, .ok j)
    ∧ ApiClient.login email password store (.reply status (some j))
      = ({ auth_token := some t, user := some (jsGet j "user") }, .ok j)
    ∧ ApiClient.isAuthenticated { auth_token := some t, user := some (jsGet j "user") }
      = true
    ∧ headersGet (ApiClient.requestConfig "/api/auth/profile" {}
        { auth_token := some t, user := some (jsGet j "user") }).headers "Authorization"
      = some ("Bearer " ++ t) := by
  have htt : (jsGet j "token").truthy = true := by
    rw [htok]; simpa [JsVal.truthy] using ht
  have hdisp : (jsGet j "token").display = t := by rw [htok]; rfl
  refine ⟨?_, ?_, rfl, ?_⟩
  · simp [ApiClient.register, ApiClient.request, hok, hsucc, htt,
      ApiClient.storeAuthResponse, hdisp]
  · simp [ApiClient.login, ApiClient.request, hok, hsucc, htt,
      ApiClient.storeAuthResponse, hdisp]
  · exact requestConfig_auth_header "/api/auth/profile" {} _ t rfl ht rfl rfl

/-- C7 witness: registering with the documented scenario response persists
`tok123` and authenticates the session. -/
theorem auth_success_persists_session_witness :
    ApiClient.register "a@b.com" "secret1" ⟨none, none⟩
        (.reply 200 (some (.obj [("success", .bool true), ("token", .str "tok123"),
          ("user", .obj [("user_id", .str "u1"), ("email", .str "a@b.com")])])))
      = ({ auth_token := some "tok123",
           user := some (jsGet (.obj [("success", .bool true), ("token", .str "tok123"),
             ("user", .obj [("user_id", .str "u1"), ("email", .str "a@b.com")])]) "user") },
         .ok (.obj [("success", .bool true), ("token", .str "tok123"),
           ("user", .obj [("user_id", .str "u1"), ("email", .str "a@b.com")])]))
    ∧ ApiClient.isAuthenticated
        { auth_token := some "tok123",
          user := some (jsGet (.obj [("success", .bool true), ("token", .str "tok123"),
            ("user", .obj [("user_id", .str "u1"), ("email", .str "a@b.com")])]) "user") }
      = true := by
  have h := auth_success_persists_session "a@b.com" "secret1" "tok123" ⟨none, none⟩
    200 (.obj [("success", .bool true), ("token", .str "tok123"),
      ("user", .obj [("user_id", .str "u1"), ("email", .str "a@b.com")])])
    rfl rfl rfl (by decide)
  exact ⟨h.1, h.2.2.1⟩

/-- C8: token validation returns true exactly when the profile fetch
succeeds, and whenever it returns false it has cleared both the cached token
and the cached user. -/
theorem validateToken_profile_contract (store : Store) (outcome : FetchOutcome) :
    ((ApiClient.validateToken store outcome).2 = true ↔
      ∃ j, (ApiClient.getProfile store outcome).2 = .ok j)
    ∧ ((ApiClient.validateToken store outcome).2 = false →
      (ApiClient.validateToken store outcome).1 = Store.cleared) := by
  unfold ApiClient.validateToken
  rcases h : ApiClient.getProfile store outcome with ⟨s1, res⟩
  cases res <;> simp

/-- C8 witness: a transport failure flips validation to false and clears the
session; a 200 profile reply validates to true. -/
theorem validateToken_profile_contract_witness :
    (ApiClient.validateToken ⟨some "t", none⟩ (.netError none)).1 = Store.cleared
    ∧ (ApiClient.validateToken ⟨some "t", none⟩ (.reply 200 (some .null))).2 = true :=
  ⟨(validateToken_profile_contract ⟨some "t", none⟩ (.netError none)).2 rfl,
   (validateToken_profile_contract ⟨some "t", none⟩
      (.reply 200 (some .null))).1.mpr ⟨.null, rfl⟩⟩

/-- C9: a new-job submission with check interval 0 makes no create-job call,
interval 1441 likewise makes none, and interval 1440 with a nonempty name
and a well-formed URL passes validation and issues the create-job call. -/
theorem newJob_interval_validation (urlValid : String → Bool) (f : NewJobFormData) :
    (f.check_interval_minutes = 0 → NewJob.handleSubmit urlValid f = none)
    ∧ (f.check_interval_minutes = 1441 → NewJob.handleSubmit urlValid f = none)
    ∧ (f.check_interval_minutes = 1440 → jsTrim f.name ≠ "" → jsTrim f.url ≠ "" →
        urlValid f.url = true →
        NewJob.handleSubmit urlValid f
          = some ⟨f.name, f.url, f.check_interval_minutes⟩) := by
  refine ⟨?_, ?_, ?_⟩
  · intro h0
    simp [NewJob.handleSubmit, NewJob.validateForm, h0]
  · intro h1441
    simp [NewJob.handleSubmit, NewJob.validateForm, h1441]
  · intro h1440 hname hurl hvalid
    simp [NewJob.handleSubmit, NewJob.validateForm, h1440, hname, hurl, hvalid]

/-- C9 witness: with a valid name and URL, interval 0 and 1441 are rejected
before any call and 1440 issues the create-job call. -/
theorem newJob_interval_validation_witness :
    NewJob.handleSubmit (fun _ => true) ⟨"a", "https://x", 0⟩ = none
    ∧ NewJob.handleSubmit (fun _ => true) ⟨"a", "https://x", 1441⟩ = none
    ∧ NewJob.handleSubmit (fun _ => true) ⟨"a", "https://x", 1440⟩
      = some ⟨"a", "https://x", 1440⟩ :=
  ⟨(newJob_interval_validation (fun _ => true) ⟨"a", "https://x", 0⟩).1 rfl,
   (newJob_interval_validation (fun _ => true) ⟨"a", "https://x", 1441⟩).2.1 rfl,
   (newJob_interval_validation (fun _ => true) ⟨"a", "https://x", 1440⟩).2.2 rfl
     (by decide) (by decide) rfl⟩

/-- C10: on a success reply, login and register write the token and user to
the store exactly when the body's `success` and `token` fields are both
truthy; otherwise — including `success` true with a missing or empty token —
the store is left completely unchanged; in both cases the parsed body is
returned to the caller. -/
theorem auth_write_iff_success_and_token (email password : String) (store : Store)
    (status : Nat) (j : JsVal) (hok : responseOk status = true) :
    (((jsGet j "success").truthy && (jsGet j "token").truthy) = true →
      ApiClient.login email password store (.reply status (some j))
        = ({ auth_token := some (jsGet j "token").display,
             user := some (jsGet j "user") }, .ok j)
      ∧ ApiClient.register email password store (.reply status (some j))
        = ({ auth_token := some (jsGet j "token").display,
             user := some (jsGet j "user") }, .ok j))
    ∧ (((jsGet j "success").truthy && (jsGet j "token").truthy) = false →
      ApiClient.login email password store (.reply status (some j)) = (store, .ok j)
      ∧ ApiClient.register email password store (.reply status (some j))
        = (store, .ok j)) := by
  constructor
  · intro hcond
    constructor
    · simp [ApiClient.login, ApiClient.request, hok, hcond, ApiClient.storeAuthResponse]
    · simp [ApiClient.register, ApiClient.request, hok, hcond,
        ApiClient.storeAuthResponse]
  · intro hcond
    constructor
    · simp [ApiClient.login, ApiClient.request, hok, hcond]
    · simp [ApiClient.register, ApiClient.request, hok, hcond]

/-- C10 witness: with `success` true and token "tok" the store is written and
the body returned; with `success` true and an empty token the store is
returned unchanged and the body still returned. -/
theorem auth_write_iff_success_and_token_witness :
    ApiClient.login "a@b.com" "pw" ⟨none, none⟩
        (.reply 200 (some (.obj [("success", .bool true), ("token", .str "tok"),
          ("user", .null)])))
      = ({ auth_token := some (jsGet (.obj [("success", .bool true),
             ("token", .str "tok"), ("user", .null)]) "token").display,
           user := some (jsGet (.obj [("success", .bool true), ("token", .str "tok"),
             ("user", .null)]) "user") },
         .ok (.obj [("success", .bool true), ("token", .str "tok"), ("user", .null)]))
    ∧ ApiClient.login "a@b.com" "pw" ⟨none, some (.str "old")⟩
        (.reply 200 (some (.obj [("success", .bool true), ("token", .str "")])))
      = (⟨none, some (.str "old")⟩,
         .ok (.obj [("success", .bool true), ("token", .str "")])) :=
  ⟨((auth_write_iff_success_and_token "a@b.com" "pw" ⟨none, none⟩ 200
      (.obj [("success", .bool true), ("token", .str "tok"), ("user", .null)])
      rfl).1 rfl).1,
   ((auth_write_iff_success_and_token "a@b.com" "pw" ⟨none, some (.str "old")⟩ 200
      (.obj [("success", .bool true), ("token", .str "")]) rfl).2 rfl).1⟩

end DarkWatch
